import Mathlib

/-!
Shallow embedding of the evaluation-and-batch-orchestration core of the
Agentic-Evaluation backend (`backend/app`): the rule-based checker, the
heuristic judge, the provider adapters, the judge dispatcher, the score
aggregator and the batch orchestrator with its status tracking.

Modelling conventions:
* Python floats are modelled as exact rationals (`ℚ`); the decimal literals
  of the source (`0.3`, `0.15`, ...) denote the corresponding rationals.
* Python strings are Lean `String`s.  The string primitives the source
  uses (`strip`, `lower`, no-argument `split`, the substring `in` operator,
  `count`) are implemented below by structural recursion on the character
  list of the string, with Python's semantics.
* Python dicts with string keys are association lists (`List (String × ℚ)`
  etc.) whose keys are unique; dict assignment prepends, lookup takes the
  first binding.
* Fallible code returns `Except String α`; a raised exception is
  `Except.error msg` with `msg` the stringified exception.
* The network call of a provider (HTTP request plus JSON-payload parsing)
  is not computable inside the embedding; it is abstracted as an oracle
  argument of type `Except String JudgePayload`: `Except.error msg` stands
  for "the call or the parse raised an exception whose string form is
  `msg`", and `Except.ok p` stands for "a JSON object was parsed whose
  five dimension fields and reason field are as in `p`".
-/

namespace AgenticEval

/-- `max(0.0, min(1.0, x))`, the clamping idiom used throughout the source. -/
def clamp01 (q : ℚ) : ℚ := max 0 (min 1 q)

/-- Python `len(s)`: number of characters. -/
def pyLen (s : String) : Nat := s.data.length

/-- Python `s.lower()` (the sources only ever lower ASCII text). -/
def pyLower (s : String) : String := String.mk (s.data.map Char.toLower)

/-- Drop leading whitespace characters. -/
def dropLeadingWs : List Char → List Char
  | [] => []
  | c :: cs => if c.isWhitespace then dropLeadingWs cs else c :: cs

/-- Python `s.strip()`: remove leading and trailing whitespace. -/
def pyStrip (s : String) : String :=
  String.mk ((dropLeadingWs (dropLeadingWs s.data).reverse).reverse)

/-- Splitting a character list on whitespace runs; `acc` is the current
word, reversed. -/
def splitWsAux : List Char → List Char → List (List Char)
  | [], acc => if acc = [] then [] else [acc.reverse]
  | c :: cs, acc =>
    if c.isWhitespace then
      if acc = [] then splitWsAux cs [] else acc.reverse :: splitWsAux cs []
    else splitWsAux cs (c :: acc)

/-- Python `s.split()` (no separator): split on whitespace runs, dropping
empty pieces. -/
def pyWords (s : String) : List String :=
  (splitWsAux s.data []).map String.mk

/-- `set(s.lower().split())`: the word set of a lowered string, as a
duplicate-free list. -/
def wordSet (s : String) : List String :=
  (pyWords (pyLower s)).dedup

/-- Cardinality of the intersection of two word sets (`len(a & b)`). -/
def interCard (a b : List String) : Nat :=
  (a.filter fun w => w ∈ b).length

/-- Whether `sub` is an initial segment of `s`. -/
def charsStartsWith : List Char → List Char → Bool
  | _, [] => true
  | [], _ :: _ => false
  | c :: cs, d :: ds => c = d && charsStartsWith cs ds

/-- Whether the non-empty pattern `sub` occurs somewhere in `s`. -/
def charsContainsNE : List Char → List Char → Bool
  | [], _ => false
  | c :: cs, sub => charsStartsWith (c :: cs) sub || charsContainsNE cs sub

/-- Python `sub in s` on strings: substring containment. -/
def pyContains (s sub : String) : Bool :=
  sub = "" || charsContainsNE s.data sub.data

/-- Count non-overlapping occurrences of the non-empty pattern `sub`;
`fuel` bounds the recursion (the caller passes the length of `s`). -/
def charsCountAux (sub : List Char) : Nat → List Char → Nat
  | 0, _ => 0
  | _, [] => 0
  | fuel + 1, c :: cs =>
    if charsStartsWith (c :: cs) sub then
      1 + charsCountAux sub fuel (List.drop (sub.length - 1) cs)
    else charsCountAux sub fuel cs

/-- Python `s.count(sub)` for non-empty `sub`: number of non-overlapping
occurrences (the embedding never counts an empty pattern). -/
def pyCountSubstr (s sub : String) : Nat :=
  if sub = "" then 0 else charsCountAux sub.data s.data.length s.data

/-- Python `s.count(c)` for a single character. -/
def pyCountChar (s : String) (c : Char) : Nat := s.data.count c

/-- Round to the nearest integer, ties to even (Python `round`). -/
def roundHalfEven (q : ℚ) : ℤ :=
  let f := ⌊q⌋
  let r := q - f
  if r < 1/2 then f
  else if 1/2 < r then f + 1
  else if f % 2 = 0 then f else f + 1

/-- Python `round(x, 4)` on the exact rational value. -/
def round4 (q : ℚ) : ℚ := (roundHalfEven (q * 10000) : ℚ) / 10000

/-- Whether an `Except` value is a raised exception. -/
def exceptIsError : Except String α → Bool
  | .error _ => true
  | .ok _ => false

/-! ## `services/rule_based.py` -/

/-- The issues appended by `apply_rule_checks`, one constructor per rule.
The Python appends the corresponding message strings
`"Response is empty"`, `"Response too short (< 10 chars)"`,
`"Response lacks sentence structure"` and
`"Low keyword overlap with prompt (<overlap>%)"` (the last formatted with
the computed overlap, carried here as the constructor argument). -/
inductive RuleIssue where
  | emptyResponse : RuleIssue
  | tooShort : RuleIssue
  | lacksStructure : RuleIssue
  | lowOverlap (overlap : ℚ) : RuleIssue
deriving DecidableEq

/-- Return value of `apply_rule_checks`: the dict
`{"score": ..., "issues": [...]}`. -/
structure RuleResult where
  score : ℚ
  issues : List RuleIssue
deriving DecidableEq

/-- Rule 4 overlap:
`len(prompt_words & response_words) / max(len(prompt_words), 1)`. -/
def ruleOverlap (prompt response : String) : ℚ :=
  (interCard (wordSet prompt) (wordSet response) : ℚ)
    / (max (wordSet prompt).length 1 : ℚ)

/-- `rule_based.apply_rule_checks(prompt, response)`.  Each rule appends
its issue and deducts from the running score; the score is clamped to
`[0,1]` on return.  (Rule 1's Python guard `not response or
len(response.strip()) == 0` is equivalent to `response.strip() == ""`.) -/
def apply_rule_checks (prompt response : String) : RuleResult :=
  let issues : List RuleIssue := []
  let score : ℚ := 1.0
  -- Rule 1: `if not response or len(response.strip()) == 0`
  let issues := if pyStrip response = "" then issues ++ [.emptyResponse] else issues
  let score := if pyStrip response = "" then score - 0.3 else score
  -- Rule 2: `if len(response.strip()) < 10`
  let issues := if pyLen (pyStrip response) < 10 then issues ++ [.tooShort] else issues
  let score := if pyLen (pyStrip response) < 10 then score - 0.2 else score
  -- Rule 3: `if response.count('.') == 0 and ... '?' ... and ... '!' ...`
  let noSentence :=
    pyCountChar response '.' = 0 ∧ pyCountChar response '?' = 0 ∧
      pyCountChar response '!' = 0
  let issues := if noSentence then issues ++ [.lacksStructure] else issues
  let score := if noSentence then score - 0.15 else score
  -- Rule 4: `if overlap < 0.1`
  let issues :=
    if ruleOverlap prompt response < 0.1 then
      issues ++ [.lowOverlap (ruleOverlap prompt response)]
    else issues
  let score := if ruleOverlap prompt response < 0.1 then score - 0.1 else score
  { score := clamp01 score, issues := issues }

/-! ## `services/llm_judge.py` — the heuristic judge -/

/-- The five fixed dimension keys of the `dimension_scores` dict. -/
structure DimensionScores where
  instruction_following : ℚ
  hallucination_prevention : ℚ
  assumption_prevention : ℚ
  coherence : ℚ
  accuracy : ℚ
deriving DecidableEq

/-- The entries of the heuristic judge's `reasons` list (joined with `"; "`
into the returned reason string; an empty list yields the fixed string
`"Response meets evaluation criteria (heuristic evaluation)"`), plus the
reason string a provider returns (`providerReason`).  Each heuristic
constructor carries the value interpolated into its Python message. -/
inductive JudgeReason where
  | speculative (count : Nat) : JudgeReason
  | assumptions (count : Nat) : JudgeReason
  | brief : JudgeReason
  | lowSimilarity (similarity : ℚ) : JudgeReason
  | hedging (count : Nat) : JudgeReason
  | providerReason (text : String) : JudgeReason
deriving DecidableEq

/-- Return value of the judges and providers:
`{"score": ..., "reason": ..., "dimension_scores": {...}}`. -/
structure JudgeResult where
  score : ℚ
  reason : List JudgeReason
  dimension_scores : DimensionScores
deriving DecidableEq

def hallucination_phrases : List String :=
  ["i think", "probably", "maybe", "i guess", "it seems", "could be"]

def assumption_phrases : List String :=
  ["assuming", "if we assume", "without knowing", "unclear if"]

def hedge_words : List String :=
  ["somewhat", "slightly", "relatively", "quite", "rather"]

/-- `sum(1 for phrase in hallucination_phrases if phrase in response.lower())`:
the number of distinct speculative phrases occurring in the response. -/
def hallucinationCount (response : String) : Nat :=
  (hallucination_phrases.filter fun ph => pyContains (pyLower response) ph).length

/-- `sum(1 for phrase in assumption_phrases if phrase in response.lower())`. -/
def assumptionCount (response : String) : Nat :=
  (assumption_phrases.filter fun ph => pyContains (pyLower response) ph).length

/-- `sum(1 for word in hedge_words if word in response.lower())`. -/
def hedgeCount (response : String) : Nat :=
  (hedge_words.filter fun w => pyContains (pyLower response) w).length

/-- Heuristic 5's similarity:
`len(response_words & reference_words) / len(reference_words)`. -/
def refSimilarity (response reference : String) : ℚ :=
  (interCard (wordSet response) (wordSet reference) : ℚ)
    / ((wordSet reference).length : ℚ)

/-- The guards of heuristic 5 combined: a truthy (non-`None`, non-empty)
reference whose word set is non-empty and whose similarity with the
response is below `0.3`. -/
def refDeductCond (response : String) : Option String → Prop
  | none => False
  | some ref => ref ≠ "" ∧ (wordSet ref).length ≠ 0 ∧ refSimilarity response ref < 0.3

instance refDeductCondDec (response : String) :
    (reference : Option String) → Decidable (refDeductCond response reference)
  | none => isFalse fun h => h
  | some ref =>
    inferInstanceAs
      (Decidable (ref ≠ "" ∧ (wordSet ref).length ≠ 0 ∧ refSimilarity response ref < 0.3))

/-- The final `# Normalize scores` loop: clamp every dimension to `[0,1]`. -/
def clampDims (ds : DimensionScores) : DimensionScores :=
  { instruction_following := clamp01 ds.instruction_following
    hallucination_prevention := clamp01 ds.hallucination_prevention
    assumption_prevention := clamp01 ds.assumption_prevention
    coherence := clamp01 ds.coherence
    accuracy := clamp01 ds.accuracy }

/-- `llm_judge.judge_with_heuristics(prompt, response, reference)`.
Each heuristic block of the source tests one condition and then deducts
from the running overall score, deducts from one dimension and appends a
reason; the blocks appear in source order (hallucination, assumption,
brevity, reference similarity, hedging).  `reference = none` is Python's
`reference=None`; the `if reference:` guard is falsy for `None` and for
the empty string. -/
def judge_with_heuristics (prompt response : String)
    (reference : Option String) : JudgeResult :=
  let score : ℚ := 0.8
  let reasons : List JudgeReason := []
  let ds : DimensionScores := ⟨0.8, 0.8, 0.8, 0.8, 0.8⟩
  -- Heuristic 1: hallucination detection (`if hallucination_count > 2`)
  let score := if 2 < hallucinationCount response then score - 0.15 else score
  let ds := if 2 < hallucinationCount response then
      { ds with hallucination_prevention := ds.hallucination_prevention - 0.2 } else ds
  let reasons := if 2 < hallucinationCount response then
      reasons ++ [.speculative (hallucinationCount response)] else reasons
  -- Heuristic 2: assumption prevention (`if assumption_count > 1`)
  let score := if 1 < assumptionCount response then score - 0.1 else score
  let ds := if 1 < assumptionCount response then
      { ds with assumption_prevention := ds.assumption_prevention - 0.15 } else ds
  let reasons := if 1 < assumptionCount response then
      reasons ++ [.assumptions (assumptionCount response)] else reasons
  -- Heuristic 3: brevity (`if len(response.strip()) < 50`)
  let score := if pyLen (pyStrip response) < 50 then score - 0.1 else score
  let ds := if pyLen (pyStrip response) < 50 then
      { ds with accuracy := ds.accuracy - 0.15 } else ds
  let reasons := if pyLen (pyStrip response) < 50 then reasons ++ [.brief] else reasons
  -- Heuristic 5 (source numbering): reference similarity
  let score := if refDeductCond response reference then score - 0.1 else score
  let ds := if refDeductCond response reference then
      { ds with accuracy := ds.accuracy - 0.15 } else ds
  let reasons := if refDeductCond response reference then
      reasons ++ [.lowSimilarity (refSimilarity response (reference.getD ""))] else reasons
  -- Heuristic 4 (source numbering): hedging language (`if hedge_count > 1`)
  let score := if 1 < hedgeCount response then score - 0.05 else score
  let ds := if 1 < hedgeCount response then
      { ds with coherence := ds.coherence - 0.1 } else ds
  let reasons := if 1 < hedgeCount response then
      reasons ++ [.hedging (hedgeCount response)] else reasons
  { score := clamp01 score, reason := reasons,
    dimension_scores := clampDims ds }

/-! ## Provider adapters
(`services/llm_provider.py`, `llm_provider_openai.py`,
`llm_provider_anthropic.py`) -/

/-- The dimension and reason fields of the JSON object parsed from a
provider's reply; a `none` field was absent from the payload. -/
structure JudgePayload where
  instruction_following : Option ℚ
  hallucination_prevention : Option ℚ
  assumption_prevention : Option ℚ
  coherence : Option ℚ
  accuracy : Option ℚ
  reason : Option String
deriving DecidableEq

/-- The shared `# Normalize and compute overall score` tail of all three
providers: read the five dimensions with default `0.5`, average them,
clamp the overall score — and return the dimension values unclamped. -/
def normalizePayload (defaultReason : String) (p : JudgePayload) : JudgeResult :=
  let d0 := p.instruction_following.getD 0.5
  let d1 := p.hallucination_prevention.getD 0.5
  let d2 := p.assumption_prevention.getD 0.5
  let d3 := p.coherence.getD 0.5
  let d4 := p.accuracy.getD 0.5
  let overall := (d0 + d1 + d2 + d3 + d4) / 5
  { score := clamp01 overall
    reason := [.providerReason (p.reason.getD defaultReason)]
    dimension_scores :=
      { instruction_following := d0
        hallucination_prevention := d1
        assumption_prevention := d2
        coherence := d3
        accuracy := d4 } }

/-- `GeminiProvider.__init__` state.  Falsy optional strings are modelled
as `""` (for `api_key`/`endpoint`) and `none` (for `project_id`). -/
structure GeminiProvider where
  project_id : Option String
  location : String
  model : String
  api_key : String
  endpoint : String
deriving DecidableEq

/-- The REST endpoint selection at the top of
`GeminiProvider.evaluate_response`: the explicit endpoint if it is a
non-blank string, else one constructed from `project_id` (never the case
via the dispatcher, which passes no `project_id`). -/
def GeminiProvider.restEndpoint (g : GeminiProvider) : Option String :=
  if g.endpoint ≠ "" ∧ pyStrip g.endpoint ≠ "" then some g.endpoint
  else match g.project_id with
    | some pid =>
      some ("https://" ++ g.location ++ "-aiplatform.googleapis.com/v1/projects/"
        ++ pid ++ "/locations/" ++ g.location ++ "/models/" ++ g.model ++ ":predict")
    | none => none

/-- `GeminiProvider.evaluate_response`.  With an API key and an endpoint
it performs the REST call (the `outcome` oracle); a failed call or parse
is re-raised wrapped in `"Gemini evaluation (REST) failed: ..."`, and a
parsed payload is normalized.  Without key or endpoint it raises the
fixed deployment error. -/
def GeminiProvider.evaluate_response (g : GeminiProvider)
    (_prompt _response : String) (_reference : Option String)
    (outcome : Except String JudgePayload) : Except String JudgeResult :=
  if g.api_key ≠ "" ∧ (g.restEndpoint).isSome then
    match outcome with
    | .error msg => .error ("Gemini evaluation (REST) failed: " ++ msg)
    | .ok p => .ok (normalizePayload "Evaluated by Gemini (REST)" p)
  else
    .error ("GeminiProvider: only AI Studio / Vertex REST (API key + endpoint) is supported in this deployment. Provide api_key and endpoint when creating the provider (or set ai_studio_api_key and ai_studio_endpoint in config).")

/-- `OpenAIProvider._fallback_response(reason)`: the fixed all-`0.5`
result returned when the OpenAI call fails. -/
def openai_fallback_response (reason : String) : JudgeResult :=
  { score := 0.5
    reason := [.providerReason reason]
    dimension_scores := ⟨0.5, 0.5, 0.5, 0.5, 0.5⟩ }

/-- `OpenAIProvider.__init__` state (the constructor raises on a falsy
API key; see `get_llm_provider`). -/
structure OpenAIProvider where
  api_key : String
  model : String
deriving DecidableEq

/-- `OpenAIProvider.evaluate_response`: every failure of the call or the
parse is caught and converted into `_fallback_response` — this function
never raises.  (`ImportError` produces the description
`"OpenAI client unavailable"`; any other exception `e` produces
`"OpenAI evaluation error: " + str(e)`; the oracle's error message is the
already-formatted description.) -/
def OpenAIProvider.evaluate_response (_p : OpenAIProvider)
    (_prompt _response : String) (_reference : Option String)
    (outcome : Except String JudgePayload) : JudgeResult :=
  match outcome with
  | .ok p => normalizePayload "Evaluated by OpenAI" p
  | .error msg => openai_fallback_response msg

/-- `AnthropicProvider._fallback_response(reason)`. -/
def anthropic_fallback_response (reason : String) : JudgeResult :=
  { score := 0.5
    reason := [.providerReason reason]
    dimension_scores := ⟨0.5, 0.5, 0.5, 0.5, 0.5⟩ }

/-- `AnthropicProvider.__init__` state. -/
structure AnthropicProvider where
  api_key : String
  model : String
deriving DecidableEq

/-- `AnthropicProvider.evaluate_response`: like the OpenAI adapter, every
failure is caught and converted into `_fallback_response`; never raises. -/
def AnthropicProvider.evaluate_response (_p : AnthropicProvider)
    (_prompt _response : String) (_reference : Option String)
    (outcome : Except String JudgePayload) : JudgeResult :=
  match outcome with
  | .ok p => normalizePayload "Evaluated by Anthropic Claude" p
  | .error msg => anthropic_fallback_response msg

/-! ## `core/config.py` and the dispatcher (`llm_judge.judge_with_llm`) -/

/-- The fields of `Settings` that the modelled core reads. -/
structure Settings where
  llm_provider : String
  ai_studio_endpoint : String
  ai_studio_api_key : String
  gemini_model : String
  max_batch_size : Nat
  use_llm_evaluation : Bool
  use_heuristic_fallback : Bool
  use_weighted_scoring : Bool
  dimension_weights : List (String × ℚ)
  openai_api_key : String
  openai_model : String
  anthropic_api_key : String
  anthropic_model : String
deriving DecidableEq

/-- The defaults of `core/config.py` (without environment overrides). -/
def defaultSettings : Settings :=
  { llm_provider := "gemini"
    ai_studio_endpoint := ""
    ai_studio_api_key := ""
    gemini_model := "gemini-1.5-flash"
    max_batch_size := 100
    use_llm_evaluation := true
    use_heuristic_fallback := true
    use_weighted_scoring := false
    dimension_weights :=
      [("instruction_following", 0.2), ("hallucination_prevention", 0.25),
       ("assumption_prevention", 0.15), ("coherence", 0.15), ("accuracy", 0.25)]
    openai_api_key := ""
    openai_model := "gpt-4"
    anthropic_api_key := ""
    anthropic_model := "claude-3-opus-20240229" }

/-- The provider instance chosen by `get_llm_provider`. -/
inductive ProviderInst where
  | gemini (g : GeminiProvider) : ProviderInst
  | openai (p : OpenAIProvider) : ProviderInst
  | anthropic (p : AnthropicProvider) : ProviderInst
deriving DecidableEq

/-- The `GeminiProvider` the factory constructs from the dispatcher's
`provider_kwargs` (no `project_id`, default location, model/key/endpoint
from the settings). -/
def dispatcherGeminiInstance (settings : Settings) : GeminiProvider :=
  { project_id := none
    location := "us-central1"
    model := settings.gemini_model
    api_key := settings.ai_studio_api_key
    endpoint := settings.ai_studio_endpoint }

/-- `get_llm_provider(settings.llm_provider, **provider_kwargs)` with the
`provider_kwargs` that `judge_with_llm` builds from `settings`: the
factory constructs the provider (the OpenAI/Anthropic constructors raise
`ValueError` on a falsy API key) or raises `ValueError` for an unknown
provider name. -/
def get_llm_provider (settings : Settings) : Except String ProviderInst :=
  if settings.llm_provider = "gemini" then
    .ok (.gemini (dispatcherGeminiInstance settings))
  else if settings.llm_provider = "openai" then
    if settings.openai_api_key = "" then .error "OpenAI API key must be provided"
    else .ok (.openai { api_key := settings.openai_api_key, model := settings.openai_model })
  else if settings.llm_provider = "anthropic" then
    if settings.anthropic_api_key = "" then .error "Anthropic API key must be provided"
    else .ok (.anthropic
      { api_key := settings.anthropic_api_key, model := settings.anthropic_model })
  else
    .error ("Unsupported provider: " ++ settings.llm_provider
      ++ ". Supported: gemini, openai, anthropic")

/-- `provider.evaluate_response(prompt, response, reference=reference)`
on the chosen instance.  Only the Gemini adapter can raise. -/
def providerEvaluate (inst : ProviderInst) (prompt response : String)
    (reference : Option String) (outcome : Except String JudgePayload) :
    Except String JudgeResult :=
  match inst with
  | .gemini g => g.evaluate_response prompt response reference outcome
  | .openai p => .ok (p.evaluate_response prompt response reference outcome)
  | .anthropic p => .ok (p.evaluate_response prompt response reference outcome)

/-- `llm_judge.judge_with_llm(prompt, response, reference)`: with
`use_llm_evaluation` off, delegate to the heuristic judge; otherwise try
the configured provider, and on any raised exception either fall back to
the heuristic judge (`use_heuristic_fallback`) or re-raise. -/
def judge_with_llm (settings : Settings) (prompt response : String)
    (reference : Option String) (outcome : Except String JudgePayload) :
    Except String JudgeResult :=
  if settings.use_llm_evaluation = false then
    .ok (judge_with_heuristics prompt response reference)
  else
    match (do
        let inst ← get_llm_provider settings
        providerEvaluate inst prompt response reference outcome :
        Except String JudgeResult) with
    | .ok r => .ok r
    | .error e =>
      if settings.use_heuristic_fallback then
        .ok (judge_with_heuristics prompt response reference)
      else .error e

/-! ## `services/score_aggregator.py` -/

/-- `aggregate_scores(scores)`: `0.0` for an empty list, else the mean
clamped to `[0,1]`. -/
def aggregate_scores (scores : List ℚ) : ℚ :=
  if scores = [] then 0.0
  else clamp01 (scores.sum / (scores.length : ℚ))

/-- Python `d.get(k, default)` on an association list. -/
def dictGet (d : List (String × ℚ)) (k : String) (default : ℚ) : ℚ :=
  (d.lookup k).getD default

/-- `sum(d.values())`. -/
def dictValuesSum (d : List (String × ℚ)) : ℚ :=
  (d.map Prod.snd).sum

/-- `aggregate_scores_weighted(scores, weights)`: `0.0` for an empty
`scores` dict; else
`sum(scores.get(dim, 0) * weights.get(dim, 0) for dim in weights)`
divided by `sum(weights.values())` (`0.0` if that is zero), clamped. -/
def aggregate_scores_weighted (scores weights : List (String × ℚ)) : ℚ :=
  if scores = [] then 0.0
  else
    let weighted_sum :=
      (weights.map fun kv => dictGet scores kv.1 0 * dictGet weights kv.1 0).sum
    let total_weight := dictValuesSum weights
    if total_weight = 0 then 0.0
    else clamp01 (weighted_sum / total_weight)

/-! ## `models/request_model.py` and `api/batch.py` -/

/-- `EvaluationInput`: note that the model has no field for the agent's
response text — only `prompt` and the optional `reference`. -/
structure EvaluationInput where
  prompt : String
  reference : Option String
deriving DecidableEq

/-- `EvaluationRequest`. -/
structure EvaluationRequest where
  id : String
  model_name : String
  inputs : List EvaluationInput
deriving DecidableEq

/-- The `details` dict of a per-item result built by
`evaluate_single_input`. -/
structure ItemDetails where
  dimension_scores : DimensionScores
  rule_issues : List RuleIssue
  llm_reason : List JudgeReason
deriving DecidableEq

/-- A per-item result built by `evaluate_single_input` (the `id` string,
`f"{request_id}-{input_item}"`, is presentation-only and not modelled). -/
structure ItemResult where
  score : ℚ
  details : ItemDetails
deriving DecidableEq

/-- `api/batch.py: evaluate_single_input(request_id, model_name,
input_item)`.  The source binds `reference = input_item.reference or ""`
and then passes that string as the *response* argument of both
`apply_rule_checks` and `judge_with_llm` (whose own `reference` keyword
is left at its default `None`); the item's prompt is passed as the
prompt.  The provider-call oracle is threaded through for the dispatcher. -/
def evaluate_single_input (settings : Settings)
    (outcome : Except String JudgePayload) (input_item : EvaluationInput) :
    Except String ItemResult :=
  let prompt := input_item.prompt
  let reference := input_item.reference.getD ""
  let rule_result := apply_rule_checks prompt reference
  match judge_with_llm settings prompt reference none outcome with
  | .error e => .error e
  | .ok llm_result =>
    .ok { score := aggregate_scores [rule_result.score, llm_result.score]
          details :=
            { dimension_scores := llm_result.dimension_scores
              rule_issues := rule_result.issues
              llm_reason := llm_result.reason } }

/-! ## `services/batch_processor.py` -/

/-- `score_distribution` of a batch summary. -/
structure ScoreDistribution where
  excellent : Nat
  good : Nat
  fair : Nat
  poor : Nat
deriving DecidableEq

/-- The dict returned by `_aggregate_batch_results`.  In the empty-results
branch the source omits the `score_distribution` key (`none` here).  The
presentation-only `summary` string is not modelled. -/
structure BatchSummary where
  batch_id : String
  model_name : String
  total_evaluated : Nat
  average_score : ℚ
  dimension_averages : List (String × ℚ)
  score_distribution : Option ScoreDistribution
  results : List ItemResult
deriving DecidableEq

/-- The five dimension keys in the order `_aggregate_batch_results`
iterates them. -/
def dimensionKeys : List String :=
  ["instruction_following", "hallucination_prevention", "assumption_prevention",
   "coherence", "accuracy"]

/-- Read one key of a `DimensionScores` dict (every key is present in the
modelled results, mirroring `if dim in dim_scores`). -/
def dimValue (ds : DimensionScores) : String → Option ℚ
  | "instruction_following" => some ds.instruction_following
  | "hallucination_prevention" => some ds.hallucination_prevention
  | "assumption_prevention" => some ds.assumption_prevention
  | "coherence" => some ds.coherence
  | "accuracy" => some ds.accuracy
  | _ => none

/-- `BatchProcessor._aggregate_batch_results(request_id, model_name,
results)`. -/
def _aggregate_batch_results (request_id model_name : String)
    (results : List ItemResult) : BatchSummary :=
  if results = [] then
    { batch_id := request_id, model_name := model_name, total_evaluated := 0,
      average_score := 0.0, dimension_averages := [], score_distribution := none,
      results := [] }
  else
    let scores := results.map ItemResult.score
    let average_score :=
      if scores = [] then (0 : ℚ) else scores.sum / (scores.length : ℚ)
    let dimension_averages :=
      dimensionKeys.filterMap fun dim =>
        let values := results.filterMap fun r => dimValue r.details.dimension_scores dim
        if values = [] then none
        else some (dim, round4 (values.sum / (values.length : ℚ)))
    { batch_id := request_id
      model_name := model_name
      total_evaluated := results.length
      average_score := round4 average_score
      dimension_averages := dimension_averages
      score_distribution := some
        { excellent := (scores.filter fun s => 9/10 ≤ s).length
          good := (scores.filter fun s => 7/10 ≤ s ∧ s < 9/10).length
          fair := (scores.filter fun s => 5/10 ≤ s ∧ s < 7/10).length
          poor := (scores.filter fun s => s < 5/10).length }
      results := results }

/-- `BatchProcessor.chunk_requests(inputs, chunk_size)`:
`[inputs[i:i+chunk_size] for i in range(0, len(inputs), chunk_size)]`.
The recursion is fuelled by the input length; a positive `chunk_size`
(the processor always passes `max_batch_size = 100`) never exhausts it. -/
def chunksGo (chunk_size : Nat) : Nat → List EvaluationInput → List (List EvaluationInput)
  | 0, _ => []
  | _, [] => []
  | fuel + 1, x :: xs =>
    (x :: xs).take chunk_size :: chunksGo chunk_size fuel ((x :: xs).drop chunk_size)

def chunk_requests (inputs : List EvaluationInput) (chunk_size : Nat) :
    List (List EvaluationInput) :=
  chunksGo chunk_size inputs.length inputs

/-- One chunk's `asyncio.gather` of `evaluate_func` over its items: all
results in order, or the exception of a failing item (determinised to the
first failing item in chunk order). -/
def gather_chunk (evaluate : EvaluationInput → Except String ItemResult) :
    List EvaluationInput → Except String (List ItemResult)
  | [] => .ok []
  | x :: xs =>
    match evaluate x, gather_chunk evaluate xs with
    | .error e, _ => .error e
    | .ok _, .error e => .error e
    | .ok r, .ok rs => .ok (r :: rs)

/-- The chunk loop of `process_batch_async`: process chunks in order,
extending `all_results` and advancing `processed` (reported through the
progress callback) after each completed chunk; a chunk failure aborts the
loop.  Returns the last reported `processed` count together with the
outcome. -/
def run_chunks (evaluate : EvaluationInput → Except String ItemResult) :
    List (List EvaluationInput) → Nat → Nat × Except String (List ItemResult)
  | [], processed => (processed, .ok [])
  | c :: cs, processed =>
    match gather_chunk evaluate c with
    | .error e => (processed, .error e)
    | .ok rs =>
      match run_chunks evaluate cs (processed + c.length) with
      | (p, .error e) => (p, .error e)
      | (p, .ok rest) => (p, .ok (rs ++ rest))

/-- `BatchProcessor.process_batch_async` (chunk size `100` from the global
`batch_processor` instance): chunk the inputs, run each chunk, aggregate.
Returns the final `processed` count next to the outcome. -/
def process_batch_async (evaluate : EvaluationInput → Except String ItemResult)
    (request_id model_name : String) (inputs : List EvaluationInput) :
    Nat × Except String BatchSummary :=
  match run_chunks evaluate (chunk_requests inputs 100) 0 with
  | (p, .error e) => (p, .error e)
  | (p, .ok all_results) =>
    (p, .ok (_aggregate_batch_results request_id model_name all_results))

/-! ## `api/batch.py` — status tracking and the background task -/

/-- One value of the module-level `batch_status` dict.  The initial dict
has no `error` key (`none` here); `result` starts as `None`. -/
structure BatchEntry where
  status : String
  total : Nat
  processed : Nat
  result : Option BatchSummary
  error : Option String
deriving DecidableEq

/-- The module-level `batch_status` store, most recent binding first. -/
def BatchStore : Type := List (String × BatchEntry)

/-- Dict assignment `batch_status[batch_id] = entry`. -/
def storeSet (st : BatchStore) (k : String) (v : BatchEntry) : BatchStore :=
  (k, v) :: st

/-- Dict lookup. -/
def storeGet (st : BatchStore) (k : String) : Option BatchEntry :=
  List.lookup k st

/-- The JSON body returned by `POST /batch`. -/
structure SubmitResponse where
  batch_id : String
  status : String
  total : Nat
  message : String
deriving DecidableEq

/-- The synchronous part of the `evaluate_batch` endpoint: insert the
tracking entry (`status="processing"`, `processed=0`, `total=len(inputs)`,
`result=None`) and return the immediate response
(`status="queued"`, `total=len(inputs)`). -/
def evaluate_batch (req : EvaluationRequest) (st : BatchStore) :
    BatchStore × SubmitResponse :=
  (storeSet st req.id
    { status := "processing", total := req.inputs.length, processed := 0,
      result := none, error := none },
   { batch_id := req.id
     status := "queued"
     total := req.inputs.length
     message := "Batch " ++ req.id ++ " queued for processing. Check /batch/status/"
       ++ req.id ++ " for progress." })

/-- The effect of the background task `_process_batch` on the tracked
entry: the progress callback keeps `processed` up to date; on success the
summary is stored and the status becomes `"completed"`; on any exception
the status becomes `"failed"` with the stringified exception as `error`
(and `result` untouched).  (`save_results.save_result` is external
persistence and not modelled.) -/
def _process_batch_entry (evaluate : EvaluationInput → Except String ItemResult)
    (req : EvaluationRequest) (entry : BatchEntry) : BatchEntry :=
  match process_batch_async evaluate req.id req.model_name req.inputs with
  | (p, .ok summary) =>
    { entry with processed := p, status := "completed", result := some summary }
  | (p, .error e) =>
    { entry with processed := p, status := "failed", error := some e }

/-- `_process_batch` as a store transformer: update the tracked entry for
`req.id` (inserted by `evaluate_batch` before the task runs). -/
def _process_batch (evaluate : EvaluationInput → Except String ItemResult)
    (req : EvaluationRequest) (st : BatchStore) : BatchStore :=
  match storeGet st req.id with
  | none => st
  | some entry => storeSet st req.id (_process_batch_entry evaluate req entry)

/-- Submission followed by the background task: the endpoint inserts the
tracking entry and schedules `_process_batch`. -/
def submit_and_process (evaluate : EvaluationInput → Except String ItemResult)
    (req : EvaluationRequest) (st : BatchStore) : BatchStore :=
  _process_batch evaluate req (evaluate_batch req st).1

/-! ## Helper definitions used by theorem statements -/

/-- The total number of occurrences of the six speculative phrases in the
(lowercased) response — the reading of "occur at least 3 times in total"
(the source instead counts how many distinct phrases occur). -/
def totalSpeculativeOccurrences (response : String) : Nat :=
  (hallucination_phrases.map fun ph => pyCountSubstr (pyLower response) ph).sum

/-- The sum of the heuristic judge's overall-score deductions other than
the speculative-phrase deduction (assumptions, brevity, reference
similarity, hedging), with the source's conditions. -/
def otherHeuristicDeductions (response : String) (reference : Option String) : ℚ :=
  (if 1 < assumptionCount response then (0.1:ℚ) else 0)
    + (if pyLen (pyStrip response) < 50 then (0.1:ℚ) else 0)
    + (if refDeductCond response reference then (0.1:ℚ) else 0)
    + (if 1 < hedgeCount response then (0.05:ℚ) else 0)

/-- The `instruction_following` dimension of a successful provider result. -/
def geminiOkInstructionDim : Except String JudgeResult → Option ℚ
  | .ok r => some r.dimension_scores.instruction_following
  | .error _ => none

/-- The exception message with which the Gemini adapter (as configured by
the dispatcher) fails when the REST call errors: the wrapped call error
when key and endpoint are configured, the fixed deployment error
otherwise. -/
def geminiFailureMessage (settings : Settings) (msg : String) : String :=
  if settings.ai_studio_api_key ≠ "" ∧ (dispatcherGeminiInstance settings).restEndpoint.isSome
  then "Gemini evaluation (REST) failed: " ++ msg
  else "GeminiProvider: only AI Studio / Vertex REST (API key + endpoint) is supported in this deployment. Provide api_key and endpoint when creating the provider (or set ai_studio_api_key and ai_studio_endpoint in config)."

/-- A configuration selecting the OpenAI provider (with a key), otherwise
the defaults. -/
def openaiSettings : Settings :=
  { defaultSettings with llm_provider := "openai", openai_api_key := "sk-test" }

/-- Whether a tracked batch entry carries an error message. -/
def entryHasError (e : BatchEntry) : Bool := e.error.isSome

/-- An `evaluate_func` whose every item evaluation raises. -/
def c8FailingEvaluate (_i : EvaluationInput) : Except String ItemResult :=
  .error "boom"

/-! ## Helper lemmas -/

lemma clamp01_nonneg (q : ℚ) : 0 ≤ clamp01 q := le_max_left 0 _

lemma clamp01_le_one (q : ℚ) : clamp01 q ≤ 1 := max_le (by norm_num) (min_le_left 1 q)

lemma apply_rule_checks_shape (p r : String) :
    ∃ s is, apply_rule_checks p r = { score := clamp01 s, issues := is } :=
  ⟨_, _, rfl⟩

lemma judge_with_heuristics_shape (p r : String) (ref : Option String) :
    ∃ s rs ds, judge_with_heuristics p r ref
      = { score := clamp01 s, reason := rs, dimension_scores := clampDims ds } :=
  ⟨_, _, _, rfl⟩

lemma normalizePayload_score (dflt : String) (p : JudgePayload) :
    (normalizePayload dflt p).score
      = clamp01 ((p.instruction_following.getD 0.5 + p.hallucination_prevention.getD 0.5
          + p.assumption_prevention.getD 0.5 + p.coherence.getD 0.5
          + p.accuracy.getD 0.5) / 5) := rfl

lemma lookup_eq_of_mem_nodup :
    ∀ {l : List (String × ℚ)} {k : String} {v : ℚ},
      (l.map Prod.fst).Nodup → (k, v) ∈ l → l.lookup k = some v := by
  intro l
  induction l with
  | nil => intro k v _ hm; cases hm
  | cons hd tl ih =>
    intro k v hnd hm
    obtain ⟨hhd, htl⟩ := List.nodup_cons.mp hnd
    rcases List.mem_cons.mp hm with heq | hmem
    · cases heq
      simp [List.lookup]
    · have hne : k ≠ hd.1 := by
        intro h
        exact hhd (h ▸ List.mem_map_of_mem Prod.fst hmem)
      simp [List.lookup, beq_eq_false_iff_ne.mpr hne]
      exact ih htl hmem

lemma aggregate_average_score_formula (rid mn : String) (results : List ItemResult) :
    (_aggregate_batch_results rid mn results).average_score
      = if results = [] then 0
        else round4 ((results.map ItemResult.score).sum
          / ((results.map ItemResult.score).length : ℚ)) := by
  simp only [_aggregate_batch_results]
  split_ifs with h1 h2
  · norm_num
  · exact absurd h2 (by simpa using h1)
  · rfl

lemma gather_chunk_isError (evaluate : EvaluationInput → Except String ItemResult) :
    ∀ c : List EvaluationInput,
      (∃ x, x ∈ c ∧ exceptIsError (evaluate x) = true) →
      exceptIsError (gather_chunk evaluate c) = true := by
  intro c
  induction c with
  | nil =>
    rintro ⟨x, hx, _⟩
    cases hx
  | cons y ys ih =>
    rintro ⟨x, hx, hxe⟩
    rcases List.mem_cons.mp hx with heq | hmem
    · subst heq
      cases hey : evaluate x with
      | error e => simp [gather_chunk, hey, exceptIsError]
      | ok v => rw [hey] at hxe; simp [exceptIsError] at hxe
    · cases hey : evaluate y with
      | error e => simp [gather_chunk, hey, exceptIsError]
      | ok v =>
        have h2 := ih ⟨x, hmem, hxe⟩
        cases hg : gather_chunk evaluate ys with
        | error e => simp [gather_chunk, hey, hg, exceptIsError]
        | ok rs => rw [hg] at h2; simp [exceptIsError] at h2

lemma mem_chunksGo :
    ∀ (k : Nat) (fuel : Nat) (inputs : List EvaluationInput) (x : EvaluationInput),
      0 < k → inputs.length ≤ fuel → x ∈ inputs →
      ∃ c, c ∈ chunksGo k fuel inputs ∧ x ∈ c := by
  intro k fuel
  induction fuel with
  | zero =>
    intro inputs x _ hlen hx
    have : inputs = [] := List.length_eq_zero.mp (Nat.le_zero.mp hlen)
    subst this
    cases hx
  | succ n ih =>
    intro inputs x hk hlen hx
    cases inputs with
    | nil => cases hx
    | cons y ys =>
      have hsplit : x ∈ (y :: ys).take k ++ (y :: ys).drop k := by
        rw [List.take_append_drop]
        exact hx
      rcases List.mem_append.mp hsplit with htake | hdrop
      · exact ⟨(y :: ys).take k, List.mem_cons_self _ _, htake⟩
      · have hdlen : ((y :: ys).drop k).length ≤ n := by
          rw [List.length_drop]
          have hl : (y :: ys).length ≤ n + 1 := hlen
          omega
        obtain ⟨c, hc, hxc⟩ := ih ((y :: ys).drop k) x hk hdlen hdrop
        exact ⟨c, List.mem_cons_of_mem _ hc, hxc⟩

lemma run_chunks_isError (evaluate : EvaluationInput → Except String ItemResult) :
    ∀ (chunks : List (List EvaluationInput)) (processed : Nat),
      (∃ c, c ∈ chunks ∧ exceptIsError (gather_chunk evaluate c) = true) →
      exceptIsError (run_chunks evaluate chunks processed).2 = true := by
  intro chunks
  induction chunks with
  | nil =>
    rintro processed ⟨c, hc, _⟩
    cases hc
  | cons d ds ih =>
    rintro processed ⟨c, hc, hce⟩
    rcases List.mem_cons.mp hc with heq | hmem
    · subst heq
      cases hg : gather_chunk evaluate c with
      | error e => simp [run_chunks, hg, exceptIsError]
      | ok rs => rw [hg] at hce; simp [exceptIsError] at hce
    · cases hg : gather_chunk evaluate d with
      | error e => simp [run_chunks, hg, exceptIsError]
      | ok rs =>
        have h2 := ih (processed + d.length) ⟨c, hmem, hce⟩
        simp only [run_chunks, hg]
        rcases hr : run_chunks evaluate ds (processed + d.length) with ⟨p, res⟩
        rw [hr] at h2
        cases res with
        | error e => simp [exceptIsError]
        | ok rest => simp [exceptIsError] at h2

lemma process_batch_async_isError
    (evaluate : EvaluationInput → Except String ItemResult)
    (rid mn : String) (inputs : List EvaluationInput) (inp : EvaluationInput)
    (hmem : inp ∈ inputs) (herr : exceptIsError (evaluate inp) = true) :
    exceptIsError (process_batch_async evaluate rid mn inputs).2 = true := by
  obtain ⟨c, hc, hxc⟩ :=
    mem_chunksGo 100 inputs.length inputs inp (by norm_num) le_rfl hmem
  have hge : exceptIsError (gather_chunk evaluate c) = true :=
    gather_chunk_isError evaluate c ⟨inp, hxc, herr⟩
  have hre : exceptIsError (run_chunks evaluate (chunk_requests inputs 100) 0).2 = true :=
    run_chunks_isError evaluate _ 0 ⟨c, hc, hge⟩
  simp only [process_batch_async]
  rcases hr : run_chunks evaluate (chunk_requests inputs 100) 0 with ⟨p, res⟩
  rw [hr] at hre
  cases res with
  | error e => simp [exceptIsError]
  | ok rs => simp [exceptIsError] at hre

lemma storeGet_set_self (st : BatchStore) (k : String) (v : BatchEntry) :
    storeGet (storeSet st k v) k = some v := by
  simp [storeGet, storeSet, List.lookup]

/-! ## Claim theorems -/

/-- C1 (code bug in the source): `evaluate_single_input` does not run the
checker and the judge on a submitted response with the reference passed as
the reference argument — `EvaluationInput` has no response field at all,
and the source scores the item's *reference* text as if it were the
response while passing `reference=None` to the judge.  At the failing
input below (default configuration, so the dispatcher's Gemini failure
falls back to the deterministic heuristic judge), the result is exactly
the rule check and the heuristic judgment of the reference text with no
reference argument. -/
theorem c1_reference_scored_as_response :
    evaluate_single_input defaultSettings (Except.error "io")
        ⟨"What is AI?", some "AI is artificial intelligence."⟩
      = Except.ok
          { score := aggregate_scores
              [(apply_rule_checks "What is AI?" "AI is artificial intelligence.").score,
               (judge_with_heuristics "What is AI?" "AI is artificial intelligence." none).score]
            details :=
            { dimension_scores :=
                (judge_with_heuristics "What is AI?" "AI is artificial intelligence." none).dimension_scores
              rule_issues := (apply_rule_checks "What is AI?" "AI is artificial intelligence.").issues
              llm_reason :=
                (judge_with_heuristics "What is AI?" "AI is artificial intelligence." none).reason } }
    ∧ (⟨"What is AI?", some "AI is artificial intelligence."⟩ : EvaluationInput).reference
        = some "AI is artificial intelligence." := by
  constructor
  · simp +decide only [evaluate_single_input, judge_with_llm, get_llm_provider,
      providerEvaluate, GeminiProvider.evaluate_response, GeminiProvider.restEndpoint,
      dispatcherGeminiInstance, defaultSettings, Option.getD_some, bind, Except.bind,
      ite_true, ite_false]
  · rfl

/-- C2, counterexample: the Gemini adapter returns the parsed dimension
values unclamped — a payload with `instruction_following = 1.5` yields a
returned dimension value of `1.5 > 1`. -/
theorem c2_counterexample_unclamped_dimension :
    geminiOkInstructionDim
      (GeminiProvider.evaluate_response
        { project_id := none, location := "us-central1", model := "gemini-1.5-flash",
          api_key := "key", endpoint := "https://example/predict" }
        "What is AI?" "AI is AI." none
        (Except.ok { instruction_following := some 1.5, hallucination_prevention := none,
                     assumption_prevention := none, coherence := none, accuracy := none,
                     reason := none })) = some 1.5
    ∧ ¬ ((1.5:ℚ) ≤ 1) := by
  constructor
  · simp +decide only [GeminiProvider.evaluate_response, GeminiProvider.restEndpoint,
      normalizePayload, geminiOkInstructionDim, Option.getD_some, Option.getD_none,
      ite_true, ite_false]
  · norm_num

/-- C2 (amended): every *overall* score returned by the rule checker, the
heuristic judge and the provider adapters is clamped to `[0,1]`, and the
heuristic judge clamps all five dimension values — but the provider
adapters return dimension values as parsed (see the counterexample). -/
theorem c2_scores_clamped :
    (∀ p r, 0 ≤ (apply_rule_checks p r).score ∧ (apply_rule_checks p r).score ≤ 1)
    ∧ (∀ p r ref,
        (0 ≤ (judge_with_heuristics p r ref).score
          ∧ (judge_with_heuristics p r ref).score ≤ 1)
        ∧ (0 ≤ (judge_with_heuristics p r ref).dimension_scores.instruction_following
          ∧ (judge_with_heuristics p r ref).dimension_scores.instruction_following ≤ 1)
        ∧ (0 ≤ (judge_with_heuristics p r ref).dimension_scores.hallucination_prevention
          ∧ (judge_with_heuristics p r ref).dimension_scores.hallucination_prevention ≤ 1)
        ∧ (0 ≤ (judge_with_heuristics p r ref).dimension_scores.assumption_prevention
          ∧ (judge_with_heuristics p r ref).dimension_scores.assumption_prevention ≤ 1)
        ∧ (0 ≤ (judge_with_heuristics p r ref).dimension_scores.coherence
          ∧ (judge_with_heuristics p r ref).dimension_scores.coherence ≤ 1)
        ∧ (0 ≤ (judge_with_heuristics p r ref).dimension_scores.accuracy
          ∧ (judge_with_heuristics p r ref).dimension_scores.accuracy ≤ 1))
    ∧ (∀ dflt payload,
        0 ≤ (normalizePayload dflt payload).score ∧ (normalizePayload dflt payload).score ≤ 1)
    ∧ (∀ op p r ref outcome,
        0 ≤ (OpenAIProvider.evaluate_response op p r ref outcome).score
          ∧ (OpenAIProvider.evaluate_response op p r ref outcome).score ≤ 1)
    ∧ (∀ ap p r ref outcome,
        0 ≤ (AnthropicProvider.evaluate_response ap p r ref outcome).score
          ∧ (AnthropicProvider.evaluate_response ap p r ref outcome).score ≤ 1) := by
  refine ⟨?_, ?_, ?_, ?_, ?_⟩
  · intro p r
    obtain ⟨s, is, h⟩ := apply_rule_checks_shape p r
    rw [h]
    exact ⟨clamp01_nonneg s, clamp01_le_one s⟩
  · intro p r ref
    obtain ⟨s, rs, ds, h⟩ := judge_with_heuristics_shape p r ref
    rw [h]
    simp only [clampDims]
    exact ⟨⟨clamp01_nonneg _, clamp01_le_one _⟩, ⟨clamp01_nonneg _, clamp01_le_one _⟩,
      ⟨clamp01_nonneg _, clamp01_le_one _⟩, ⟨clamp01_nonneg _, clamp01_le_one _⟩,
      ⟨clamp01_nonneg _, clamp01_le_one _⟩, ⟨clamp01_nonneg _, clamp01_le_one _⟩⟩
  · intro dflt payload
    rw [normalizePayload_score]
    exact ⟨clamp01_nonneg _, clamp01_le_one _⟩
  · intro op p r ref outcome
    cases outcome with
    | ok payload =>
      show 0 ≤ (normalizePayload "Evaluated by OpenAI" payload).score
        ∧ (normalizePayload "Evaluated by OpenAI" payload).score ≤ 1
      rw [normalizePayload_score]
      exact ⟨clamp01_nonneg _, clamp01_le_one _⟩
    | error msg =>
      show (0:ℚ) ≤ (openai_fallback_response msg).score
        ∧ (openai_fallback_response msg).score ≤ 1
      norm_num [openai_fallback_response]
  · intro ap p r ref outcome
    cases outcome with
    | ok payload =>
      show 0 ≤ (normalizePayload "Evaluated by Anthropic Claude" payload).score
        ∧ (normalizePayload "Evaluated by Anthropic Claude" payload).score ≤ 1
      rw [normalizePayload_score]
      exact ⟨clamp01_nonneg _, clamp01_le_one _⟩
    | error msg =>
      show (0:ℚ) ≤ (anthropic_fallback_response msg).score
        ∧ (anthropic_fallback_response msg).score ≤ 1
      norm_num [anthropic_fallback_response]

/-- C3: for every prompt and response the rule checker's score is
`max(0, min(1, 1.0 - sum of the triggered deductions))` with the four
deductions of the source (empty/whitespace 0.3, trimmed length < 10
chars 0.2, no sentence punctuation 0.15, word-set overlap below 0.10
with the denominator floored at 1: 0.1), and the issues list is empty
iff no deduction triggered. -/
theorem c3_rule_checker_score_formula (p r : String) :
    (apply_rule_checks p r).score
      = max 0 (min 1 (1.0 -
          ((if pyStrip r = "" then (0.3:ℚ) else 0)
            + (if pyLen (pyStrip r) < 10 then (0.2:ℚ) else 0)
            + (if pyCountChar r '.' = 0 ∧ pyCountChar r '?' = 0 ∧ pyCountChar r '!' = 0
                then (0.15:ℚ) else 0)
            + (if ruleOverlap p r < 0.1 then (0.1:ℚ) else 0))))
    ∧ ((apply_rule_checks p r).issues = [] ↔
        ¬ (pyStrip r = "") ∧ ¬ (pyLen (pyStrip r) < 10)
          ∧ ¬ (pyCountChar r '.' = 0 ∧ pyCountChar r '?' = 0 ∧ pyCountChar r '!' = 0)
          ∧ ¬ (ruleOverlap p r < 0.1)) := by
  constructor
  · simp only [apply_rule_checks, clamp01]
    split_ifs <;> norm_num
  · simp only [apply_rule_checks]
    split_ifs <;> simp_all

/-- C4, counterexample: in `"maybe maybe maybe"` the speculative phrases
occur 3 times in total, yet the judge applies neither deduction (the
hallucination dimension stays `0.8`, not `0.8 - 0.2`, and the overall
score is only reduced by the independent brevity deduction, to `0.7`),
because the source counts *distinct* phrases, not occurrences. -/
theorem c4_counterexample_repeated_phrase :
    totalSpeculativeOccurrences "maybe maybe maybe" = 3
    ∧ (judge_with_heuristics "What is AI?" "maybe maybe maybe"
        none).dimension_scores.hallucination_prevention = 0.8
    ∧ (judge_with_heuristics "What is AI?" "maybe maybe maybe" none).score = 0.7
    ∧ (0.8:ℚ) ≠ 0.8 - 0.2 := by
  refine ⟨by decide, ?_, ?_, by norm_num⟩
  · simp +decide only [judge_with_heuristics, clampDims]
    norm_num [clamp01]
  · simp +decide only [judge_with_heuristics, clampDims]
    norm_num [clamp01]

/-- C4 (amended): the deductions (−0.15 overall before clamping, −0.2 on
`hallucination_prevention`) trigger exactly when at least 3 *distinct*
speculative phrases occur in the response (each of the six phrases
counted once no matter how often it repeats); with at most 2 distinct
phrases present neither deduction is applied. -/
theorem c4_speculative_phrase_deduction (p r : String) (ref : Option String) :
    (judge_with_heuristics p r ref).dimension_scores.hallucination_prevention
      = (if 2 < hallucinationCount r then (0.6:ℚ) else 0.8)
    ∧ (judge_with_heuristics p r ref).score
      = clamp01 (0.8 - (if 2 < hallucinationCount r then (0.15:ℚ) else 0)
          - otherHeuristicDeductions r ref) := by
  simp only [judge_with_heuristics, clampDims, otherHeuristicDeductions, clamp01]
  constructor
  · split_ifs <;> norm_num
  · split_ifs <;> norm_num

/-- C5: weighted aggregation is `0` on an empty scores dict, `0` when the
total weight is zero, and otherwise the clamped weighted sum over the
weight keys (missing dimensions contributing score 0), provided the
weights dict has no duplicate keys (Python dicts cannot). -/
theorem c5_weighted_aggregation (scores weights : List (String × ℚ))
    (hw : (weights.map Prod.fst).Nodup) :
    aggregate_scores_weighted scores weights =
      if scores = [] then 0
      else if dictValuesSum weights = 0 then 0
      else clamp01 ((weights.map fun kv => dictGet scores kv.1 0 * kv.2).sum
        / dictValuesSum weights) := by
  have hmap : (weights.map fun kv => dictGet scores kv.1 0 * dictGet weights kv.1 0)
      = weights.map fun kv => dictGet scores kv.1 0 * kv.2 := by
    apply List.map_congr_left
    intro kv hkv
    have hlk : weights.lookup kv.1 = some kv.2 := lookup_eq_of_mem_nodup hw hkv
    simp [dictGet, hlk]
  simp only [aggregate_scores_weighted, hmap]
  norm_num

/-- C5, witness: the spec's concrete instance, evaluating to exactly
`0.86`. -/
theorem c5_weighted_aggregation_witness :
    (([("instruction_following", (0.6:ℚ)), ("accuracy", 0.4)].map Prod.fst).Nodup)
    ∧ (aggregate_scores_weighted
        [("instruction_following", 0.9), ("accuracy", 0.8)]
        [("instruction_following", 0.6), ("accuracy", 0.4)] =
      if [("instruction_following", (0.9:ℚ)), ("accuracy", 0.8)] = [] then 0
      else if dictValuesSum [("instruction_following", 0.6), ("accuracy", 0.4)] = 0 then 0
      else clamp01 (([("instruction_following", (0.6:ℚ)), ("accuracy", 0.4)].map
          fun kv => dictGet [("instruction_following", 0.9), ("accuracy", 0.8)] kv.1 0 * kv.2).sum
        / dictValuesSum [("instruction_following", 0.6), ("accuracy", 0.4)]))
    ∧ aggregate_scores_weighted
        [("instruction_following", 0.9), ("accuracy", 0.8)]
        [("instruction_following", 0.6), ("accuracy", 0.4)] = 0.86 := by
  refine ⟨by decide, c5_weighted_aggregation _ _ (by decide), ?_⟩
  have hb1 : ("accuracy" == "instruction_following") = false := by decide
  have hb2 : ("instruction_following" == "instruction_following") = true := by decide
  have hb3 : ("accuracy" == "accuracy") = true := by decide
  simp +decide only [aggregate_scores_weighted, dictGet, dictValuesSum, List.lookup,
    List.map, List.sum_cons, List.sum_nil, Option.getD_some, ite_true, ite_false,
    hb1, hb2, hb3]
  norm_num [clamp01]

/-- C6, counterexample: with the OpenAI provider configured (key present,
heuristic fallback enabled) and a failing provider call, the dispatcher
returns the provider's own all-`0.5` stub — not the heuristic judge's
result, and no re-raised failure — because the OpenAI adapter swallows
its errors. -/
theorem c6_counterexample_openai_swallows_failure :
    judge_with_llm openaiSettings "What is AI?"
        "Artificial intelligence is the simulation of human intelligence by machines."
        none (Except.error "network error")
      = Except.ok (openai_fallback_response "network error")
    ∧ judge_with_llm openaiSettings "What is AI?"
        "Artificial intelligence is the simulation of human intelligence by machines."
        none (Except.error "network error")
      ≠ Except.ok (judge_with_heuristics "What is AI?"
          "Artificial intelligence is the simulation of human intelligence by machines." none)
    ∧ openaiSettings.use_heuristic_fallback = true := by
  have h1 : judge_with_llm openaiSettings "What is AI?"
      "Artificial intelligence is the simulation of human intelligence by machines."
      none (Except.error "network error")
      = Except.ok (openai_fallback_response "network error") := by
    simp +decide only [judge_with_llm, openaiSettings, defaultSettings, get_llm_provider,
      providerEvaluate, OpenAIProvider.evaluate_response, bind, Except.bind,
      ite_true, ite_false]
  have hscore : (judge_with_heuristics "What is AI?"
      "Artificial intelligence is the simulation of human intelligence by machines." none).score
      = 0.8 := by
    simp +decide only [judge_with_heuristics, clampDims]
    norm_num [clamp01]
  refine ⟨h1, ?_, by decide⟩
  rw [h1]
  simp only [ne_eq, Except.ok.injEq]
  intro h
  have hs := congrArg JudgeResult.score h
  rw [hscore] at hs
  simp only [openai_fallback_response] at hs
  norm_num at hs

/-- C6 (amended): with external judging enabled, a failing provider call
is turned into a heuristic fallback (or a re-raised failure when fallback
is disabled) for the *Gemini* configuration; for the OpenAI and Anthropic
configurations (with an API key) the adapter swallows the failure and the
dispatcher returns the adapter's `0.5` stub unchanged. -/
theorem c6_dispatcher_failure_policy (settings : Settings) (p r : String)
    (ref : Option String) (msg : String)
    (huse : settings.use_llm_evaluation = true) :
    (settings.llm_provider = "gemini" →
      judge_with_llm settings p r ref (Except.error msg)
        = if settings.use_heuristic_fallback
          then Except.ok (judge_with_heuristics p r ref)
          else Except.error (geminiFailureMessage settings msg))
    ∧ (settings.llm_provider = "openai" → settings.openai_api_key ≠ "" →
        judge_with_llm settings p r ref (Except.error msg)
          = Except.ok (openai_fallback_response msg))
    ∧ (settings.llm_provider = "anthropic" → settings.anthropic_api_key ≠ "" →
        judge_with_llm settings p r ref (Except.error msg)
          = Except.ok (anthropic_fallback_response msg)) := by
  refine ⟨?_, ?_, ?_⟩
  · intro hp
    simp +decide only [judge_with_llm, huse, get_llm_provider, hp, bind, Except.bind,
      providerEvaluate, GeminiProvider.evaluate_response, geminiFailureMessage,
      dispatcherGeminiInstance, ite_true, ite_false]
    split_ifs <;> rfl
  · intro hp hkey
    simp +decide only [judge_with_llm, huse, get_llm_provider, hp, bind, Except.bind,
      providerEvaluate, OpenAIProvider.evaluate_response, if_neg hkey,
      ite_true, ite_false]
  · intro hp hkey
    simp +decide only [judge_with_llm, huse, get_llm_provider, hp, bind, Except.bind,
      providerEvaluate, AnthropicProvider.evaluate_response, if_neg hkey,
      ite_true, ite_false]

/-- C6, witness: the default (Gemini, fallback enabled) configuration at
a concrete failing call. -/
theorem c6_dispatcher_failure_policy_witness :
    defaultSettings.use_llm_evaluation = true
    ∧ ((defaultSettings.llm_provider = "gemini" →
        judge_with_llm defaultSettings "What is AI?" "AI is AI." none (Except.error "boom")
          = if defaultSettings.use_heuristic_fallback
            then Except.ok (judge_with_heuristics "What is AI?" "AI is AI." none)
            else Except.error (geminiFailureMessage defaultSettings "boom"))
      ∧ (defaultSettings.llm_provider = "openai" → defaultSettings.openai_api_key ≠ "" →
          judge_with_llm defaultSettings "What is AI?" "AI is AI." none (Except.error "boom")
            = Except.ok (openai_fallback_response "boom"))
      ∧ (defaultSettings.llm_provider = "anthropic" → defaultSettings.anthropic_api_key ≠ "" →
          judge_with_llm defaultSettings "What is AI?" "AI is AI." none (Except.error "boom")
            = Except.ok (anthropic_fallback_response "boom"))) :=
  ⟨rfl, c6_dispatcher_failure_policy defaultSettings "What is AI?" "AI is AI." none "boom" rfl⟩

/-- C7, counterexample: submitting a two-item batch inserts the tracking
entry with status `"processing"`, not `"queued"`. -/
theorem c7_counterexample_inserted_status :
    (storeGet (evaluate_batch
        ⟨"batch-001", "test-model",
         [⟨"Test 1", some "Answer 1"⟩, ⟨"Test 2", some "Answer 2"⟩]⟩ []).1
      "batch-001").map BatchEntry.status = some "processing"
    ∧ "processing" ≠ "queued" := by
  constructor
  · simp +decide only [evaluate_batch, storeGet, storeSet, List.lookup, Option.map]
  · decide

/-- C7 (amended): on submission of a batch of `N` inputs the tracker
entry is inserted with status `"processing"` (the spec's immediate
queued→processing transition collapsed into the insertion), `processed=0`
and `total=N`, while the submission response reports status `"queued"`
with `total=N`. -/
theorem c7_submission_state (req : EvaluationRequest) (st : BatchStore) :
    storeGet (evaluate_batch req st).1 req.id
      = some { status := "processing", total := req.inputs.length, processed := 0,
               result := none, error := none }
    ∧ (evaluate_batch req st).2.status = "queued"
    ∧ (evaluate_batch req st).2.total = req.inputs.length
    ∧ (evaluate_batch req st).2.batch_id = req.id := by
  refine ⟨?_, rfl, rfl, rfl⟩
  simp [evaluate_batch, storeGet, storeSet, List.lookup]

/-- C8: if any single item's evaluation raises, the exception propagates
out of its chunk (the batch computation as a whole fails), the tracked
entry transitions to `"failed"` with an error message attached, and the
`result` field stays unset. -/
theorem c8_item_failure_fails_batch
    (evaluate : EvaluationInput → Except String ItemResult)
    (req : EvaluationRequest) (st : BatchStore) (inp : EvaluationInput)
    (hmem : inp ∈ req.inputs) (herr : exceptIsError (evaluate inp) = true) :
    exceptIsError (process_batch_async evaluate req.id req.model_name req.inputs).2 = true
    ∧ (storeGet (submit_and_process evaluate req st) req.id).map BatchEntry.status
        = some "failed"
    ∧ (storeGet (submit_and_process evaluate req st) req.id).map entryHasError
        = some true
    ∧ (storeGet (submit_and_process evaluate req st) req.id).map BatchEntry.result
        = some none := by
  have hasync := process_batch_async_isError evaluate req.id req.model_name req.inputs
    inp hmem herr
  refine ⟨hasync, ?_⟩
  have hins : storeGet (evaluate_batch req st).1 req.id
      = some { status := "processing", total := req.inputs.length, processed := 0,
               result := none, error := none } := by
    simp [evaluate_batch, storeGet, storeSet, List.lookup]
  simp only [submit_and_process, _process_batch, hins]
  rcases hpa : process_batch_async evaluate req.id req.model_name req.inputs with ⟨pc, res⟩
  rw [hpa] at hasync
  cases res with
  | ok summary => simp [exceptIsError] at hasync
  | error e =>
    simp only [_process_batch_entry, hpa, storeGet_set_self, Option.map_some]
    exact ⟨rfl, rfl, rfl⟩

/-- C8, witness: a one-item batch whose evaluation raises. -/
theorem c8_item_failure_fails_batch_witness :
    ((⟨"Q", some "A"⟩ : EvaluationInput)
        ∈ (⟨"b1", "m", [⟨"Q", some "A"⟩]⟩ : EvaluationRequest).inputs)
    ∧ exceptIsError (c8FailingEvaluate ⟨"Q", some "A"⟩) = true
    ∧ (exceptIsError (process_batch_async c8FailingEvaluate
        (⟨"b1", "m", [⟨"Q", some "A"⟩]⟩ : EvaluationRequest).id
        (⟨"b1", "m", [⟨"Q", some "A"⟩]⟩ : EvaluationRequest).model_name
        (⟨"b1", "m", [⟨"Q", some "A"⟩]⟩ : EvaluationRequest).inputs).2 = true
      ∧ (storeGet (submit_and_process c8FailingEvaluate ⟨"b1", "m", [⟨"Q", some "A"⟩]⟩ [])
          (⟨"b1", "m", [⟨"Q", some "A"⟩]⟩ : EvaluationRequest).id).map BatchEntry.status
          = some "failed"
      ∧ (storeGet (submit_and_process c8FailingEvaluate ⟨"b1", "m", [⟨"Q", some "A"⟩]⟩ [])
          (⟨"b1", "m", [⟨"Q", some "A"⟩]⟩ : EvaluationRequest).id).map entryHasError
          = some true
      ∧ (storeGet (submit_and_process c8FailingEvaluate ⟨"b1", "m", [⟨"Q", some "A"⟩]⟩ [])
          (⟨"b1", "m", [⟨"Q", some "A"⟩]⟩ : EvaluationRequest).id).map BatchEntry.result
          = some none) :=
  ⟨List.mem_cons_self _ _, rfl,
    c8_item_failure_fails_batch c8FailingEvaluate ⟨"b1", "m", [⟨"Q", some "A"⟩]⟩ []
      ⟨"Q", some "A"⟩ (List.mem_cons_self _ _) rfl⟩

/-- C9, counterexample: for per-item scores `0.1, 0.2, 0.4` the returned
`average_score` is `0.2333` — the mean rounded to 4 decimal places — and
not the exact mean `7/30`. -/
theorem c9_counterexample_rounded_average :
    (_aggregate_batch_results "b" "m"
      [⟨0.1, ⟨⟨0.8,0.8,0.8,0.8,0.8⟩, [], []⟩⟩,
       ⟨0.2, ⟨⟨0.8,0.8,0.8,0.8,0.8⟩, [], []⟩⟩,
       ⟨0.4, ⟨⟨0.8,0.8,0.8,0.8,0.8⟩, [], []⟩⟩]).average_score = 0.2333
    ∧ ((0.1:ℚ) + 0.2 + 0.4) / 3 ≠ 0.2333 := by
  constructor
  · rw [aggregate_average_score_formula]
    rw [if_neg (by decide)]
    simp only [List.map]
    norm_num [round4, roundHalfEven]
  · norm_num

/-- C9 (amended): the batch summary's `average_score` is `0.0` for an
empty result list and otherwise the arithmetic mean of the per-item final
scores *rounded to 4 decimal places* (`round(mean, 4)`); it equals the
exact mean only when that mean is a multiple of `1/10000`. -/
theorem c9_average_score (rid mn : String) (results : List ItemResult) :
    (_aggregate_batch_results rid mn results).average_score
      = if results = [] then 0
        else round4 ((results.map ItemResult.score).sum
          / ((results.map ItemResult.score).length : ℚ)) :=
  aggregate_average_score_formula rid mn results

/-- C10: the OpenAI and Anthropic adapters never raise — a failing call
yields the fixed stub (score `0.5`, all five dimensions `0.5`, the
failure description as the reason), and under an OpenAI or Anthropic
configuration (with a key) the dispatcher returns the adapter's result
as-is for *every* call outcome, so its exception-driven heuristic
fallback is never triggered by these adapters. -/
theorem c10_openai_anthropic_never_raise (op : OpenAIProvider) (ap : AnthropicProvider)
    (settings : Settings) (p r : String) (ref : Option String) (msg : String)
    (outcome : Except String JudgePayload) :
    OpenAIProvider.evaluate_response op p r ref (Except.error msg)
        = openai_fallback_response msg
    ∧ ((openai_fallback_response msg).score = 0.5
        ∧ (openai_fallback_response msg).dimension_scores = ⟨0.5, 0.5, 0.5, 0.5, 0.5⟩
        ∧ (openai_fallback_response msg).reason = [.providerReason msg])
    ∧ AnthropicProvider.evaluate_response ap p r ref (Except.error msg)
        = anthropic_fallback_response msg
    ∧ ((anthropic_fallback_response msg).score = 0.5
        ∧ (anthropic_fallback_response msg).dimension_scores = ⟨0.5, 0.5, 0.5, 0.5, 0.5⟩
        ∧ (anthropic_fallback_response msg).reason = [.providerReason msg])
    ∧ (settings.use_llm_evaluation = true → settings.llm_provider = "openai" →
        settings.openai_api_key ≠ "" →
        judge_with_llm settings p r ref outcome
          = Except.ok (OpenAIProvider.evaluate_response
              { api_key := settings.openai_api_key, model := settings.openai_model }
              p r ref outcome))
    ∧ (settings.use_llm_evaluation = true → settings.llm_provider = "anthropic" →
        settings.anthropic_api_key ≠ "" →
        judge_with_llm settings p r ref outcome
          = Except.ok (AnthropicProvider.evaluate_response
              { api_key := settings.anthropic_api_key, model := settings.anthropic_model }
              p r ref outcome)) := by
  refine ⟨rfl, ⟨rfl, rfl, rfl⟩, rfl, ⟨rfl, rfl, rfl⟩, ?_, ?_⟩
  · intro huse hp hkey
    simp +decide only [judge_with_llm, huse, get_llm_provider, hp, bind, Except.bind,
      providerEvaluate, if_neg hkey, ite_true, ite_false]
  · intro huse hp hkey
    simp +decide only [judge_with_llm, huse, get_llm_provider, hp, bind, Except.bind,
      providerEvaluate, if_neg hkey, ite_true, ite_false]

/-- C10, witness: a concrete OpenAI configuration and failing outcome. -/
theorem c10_openai_anthropic_never_raise_witness :
    openaiSettings.use_llm_evaluation = true
    ∧ openaiSettings.llm_provider = "openai"
    ∧ openaiSettings.openai_api_key ≠ ""
    ∧ judge_with_llm openaiSettings "p" "r" none (Except.error "io")
        = Except.ok (OpenAIProvider.evaluate_response
            { api_key := openaiSettings.openai_api_key, model := openaiSettings.openai_model }
            "p" "r" none (Except.error "io")) :=
  ⟨rfl, rfl, by decide,
    (c10_openai_anthropic_never_raise
        { api_key := "sk-test", model := "gpt-4" }
        { api_key := "k", model := "claude-3-opus-20240229" }
        openaiSettings "p" "r" none "io" (Except.error "io")).2.2.2.2.1
      rfl rfl (by decide)⟩

end AgenticEval
